import Mathlib

/-!
Verification of the geometric and scripting core of the mayaRig repository
(`general.py`, `quickRig.py`).

The numeric routines are embedded over `ℚ`: the Python code computes with
floats via numpy/sympy, and the claims under scrutiny are exact algebraic
identities, so the exact-field embedding is the faithful shallow model.
Scene-graph side effects (parenting, moving, node creation) are modelled by
explicit state passing over lists of objects; Python dynamic errors
(`TypeError`, `IndexError`) are modelled with explicit error values.
-/

/-- A 3D point or vector, mirroring the `[x, y, z]` lists the Python code
passes around. -/
structure Point3 where
  x : ℚ
  y : ℚ
  z : ℚ
deriving DecidableEq, Repr

def add3 (a b : Point3) : Point3 := ⟨a.x + b.x, a.y + b.y, a.z + b.z⟩

def sub3 (a b : Point3) : Point3 := ⟨a.x - b.x, a.y - b.y, a.z - b.z⟩

def smul3 (c : ℚ) (a : Point3) : Point3 := ⟨c * a.x, c * a.y, c * a.z⟩

/-- `np.dot` on 3-vectors. -/
def dot3 (a b : Point3) : ℚ := a.x * b.x + a.y * b.y + a.z * b.z

/-- Cross product of 3-vectors. -/
def cross3 (a b : Point3) : Point3 :=
  ⟨a.y * b.z - a.z * b.y, a.z * b.x - a.x * b.z, a.x * b.y - a.y * b.x⟩

def zero3 : Point3 := ⟨0, 0, 0⟩

/-- Coordinate access `p[i]`, as Python indexes the `[x, y, z]` lists. -/
def coord (p : Point3) : Fin 3 → ℚ
  | ⟨0, _⟩ => p.x
  | ⟨1, _⟩ => p.y
  | ⟨2, _⟩ => p.z

/-- A selected scene object: its world-space position and the name of its
parent transform (`none` when it sits at world level). The world position
is the quantity `pm.xform(i, q=1, t=1, ws=1)` queries and `pm.move` sets;
Maya's `pm.parent` keeps the world transform, so parenting changes only
the `parent` field. -/
structure SceneObj where
  pos : Point3
  parent : Option String
deriving DecidableEq, Repr

namespace AlignObjects

/-- One iteration of the `AlignObjects.unParent` loop: an object with a
parent is moved to world level, one without is skipped (`continue`). -/
def unParentOne (o : SceneObj) : SceneObj :=
  match o.parent with
  | none => o
  | some _ => { o with parent := none }

/-- `AlignObjects.unParent` (general.py:327-332): every selected object
that has a parent is moved to world level (`pm.parent(child, w=True)`
preserves the world position); objects without a parent are skipped. -/
def unParent (objs : List SceneObj) : List SceneObj :=
  objs.map unParentOne

/-- One iteration of the `AlignObjects.reParent` loop: an object whose
recorded original parent is non-`none` is parented back to it, a `none`
entry is skipped (`continue`). -/
def reParentOne (o : SceneObj) (par : Option String) : SceneObj :=
  match par with
  | none => o
  | some p => { o with parent := some p }

/-- `AlignObjects.reParent` (general.py:335-340), run over the recorded
child-to-parent association (again preserving world positions). -/
def reParent (objs : List SceneObj) (myParents : List (Option String)) :
    List SceneObj :=
  List.zipWith reParentOne objs myParents

/-- `AlignObjects.getFaceNormalVector` (general.py:343-351). The source
builds a Maya facet through the three points (`pm.polyCreateFacet`) and
reads its face normal back from `pm.polyInfo`; that host query is outside
the repository, so the normal is modelled by its geometric value: Maya's
facet normal for vertex order `p0, p1, p2` points along the cross product
`(p1 − p0) × (p2 − p0)` (Maya only normalizes its length, and every claim
proved below is invariant under positive rescaling of the normal). -/
def getFaceNormalVector (p0 p1 p2 : Point3) : Point3 :=
  cross3 (sub3 p1 p0) (sub3 p2 p0)

/-- `AlignObjects.getIntersectionPoint` (general.py:354-368).
`delta1 = np.dot(planeNormal, planePoint - linePoint)`,
`delta2 = np.dot(planeNormal, lineDirection)`, `lean = delta1 / delta2`,
result `pointOnLine + lean * lineDirection`. -/
def getIntersectionPoint (normalOfPlane pointOnPlane directionOfLine
    pointOnLine : Point3) : Point3 :=
  let delta1 := dot3 normalOfPlane (sub3 pointOnPlane pointOnLine)
  let delta2 := dot3 normalOfPlane directionOfLine
  let lean := delta1 / delta2
  add3 pointOnLine (smul3 lean directionOfLine)

/-- `AlignObjects.alignObjects` (general.py:297-324). With fewer than four
selected objects it warns and returns, changing nothing. Otherwise it
records every object's parent, un-parents all of them, takes the first
three as `mainDots` (whose positions define the plane and its normal),
moves every remaining object to the intersection of that plane with the
line through the object's position in the direction of the plane normal,
and re-parents everything. -/
def alignObjects (objs : List SceneObj) : List SceneObj :=
  if objs.length < 4 then objs
  else
    let myParents := objs.map (fun o => o.parent)
    match unParent objs with
    | o0 :: o1 :: o2 :: subDots =>
        let normalVector := getFaceNormalVector o0.pos o1.pos o2.pos
        let planePoint := o0.pos
        let moved := o0 :: o1 :: o2 :: subDots.map (fun o =>
          { o with pos := getIntersectionPoint normalVector planePoint
                            normalVector o.pos })
        reParent moved myParents
    | short => short

end AlignObjects

theorem unParentOne_pos (o : SceneObj) :
    (AlignObjects.unParentOne o).pos = o.pos := by
  cases h : o.parent <;> simp [AlignObjects.unParentOne, h]

theorem unParentOne_parent (o : SceneObj) :
    (AlignObjects.unParentOne o).parent = none := by
  cases h : o.parent <;> simp [AlignObjects.unParentOne, h]

theorem reParentOne_pos (o : SceneObj) (par : Option String) :
    (AlignObjects.reParentOne o par).pos = o.pos := by
  cases par <;> simp [AlignObjects.reParentOne]

theorem reParent_pos (objs : List SceneObj) (ps : List (Option String)) :
    (AlignObjects.reParent objs ps).map (fun o => o.pos)
      = (objs.take ps.length).map (fun o => o.pos) := by
  induction objs generalizing ps with
  | nil => simp [AlignObjects.reParent]
  | cons o rest ih =>
      cases ps with
      | nil => simp [AlignObjects.reParent]
      | cons p pt =>
          simp only [AlignObjects.reParent, List.zipWith_cons_cons,
            List.map_cons, List.take_succ_cons] at *
          exact congrArg₂ _ (reParentOne_pos o p) (ih pt)

theorem reParent_parent (objs : List SceneObj) (ps : List (Option String))
    (hlen : objs.length = ps.length)
    (hnone : ∀ o ∈ objs, o.parent = none) :
    (AlignObjects.reParent objs ps).map (fun o => o.parent) = ps := by
  induction objs generalizing ps with
  | nil => cases ps with
      | nil => simp [AlignObjects.reParent]
      | cons p pt => simp at hlen
  | cons o rest ih =>
      cases ps with
      | nil => simp at hlen
      | cons p pt =>
          simp only [AlignObjects.reParent, List.zipWith_cons_cons,
            List.map_cons]
          have ho : o.parent = none := hnone o (List.mem_cons_self o rest)
          have ht : ∀ a ∈ rest, a.parent = none :=
            fun a ha => hnone a (List.mem_cons_of_mem o ha)
          have hl : rest.length = pt.length := by simpa using hlen
          refine congrArg₂ _ ?_ (ih pt hl ht)
          cases p <;> simp [AlignObjects.reParentOne, ho]

/-- Characterization of `alignObjects` on a selection of four or more
objects: the returned positions are the first three originals followed by
the projections of the rest, and the returned parents are exactly the
original parents. -/
theorem alignObjects_spec (o0 o1 o2 o3 : SceneObj) (rest : List SceneObj) :
    (AlignObjects.alignObjects (o0 :: o1 :: o2 :: o3 :: rest)).map
        (fun o => o.pos)
      = o0.pos :: o1.pos :: o2.pos :: ((o3 :: rest).map (fun o =>
          AlignObjects.getIntersectionPoint
            (AlignObjects.getFaceNormalVector o0.pos o1.pos o2.pos) o0.pos
            (AlignObjects.getFaceNormalVector o0.pos o1.pos o2.pos)
            o.pos)) ∧
    (AlignObjects.alignObjects (o0 :: o1 :: o2 :: o3 :: rest)).map
        (fun o => o.parent)
      = (o0 :: o1 :: o2 :: o3 :: rest).map (fun o => o.parent) := by
  have hlen4 : ¬ (o0 :: o1 :: o2 :: o3 :: rest).length < 4 := by
    simp [List.length_cons]
  unfold AlignObjects.alignObjects
  rw [if_neg hlen4]
  simp only [AlignObjects.unParent, List.map_cons]
  constructor
  · rw [reParent_pos, List.take_of_length_le (by simp)]
    simp [List.map_map, Function.comp, unParentOne_pos]
  · rw [reParent_parent]
    · simp
    · simp [unParentOne_parent]


/-- The point returned by `getIntersectionPoint` satisfies the plane
equation whenever the divisor `n·d` is nonzero. -/
theorem intersection_on_plane (n q d p : Point3) (h : dot3 n d ≠ 0) :
    dot3 n (sub3 (AlignObjects.getIntersectionPoint n q d p) q) = 0 := by
  simp only [AlignObjects.getIntersectionPoint, dot3, sub3, add3, smul3]
    at h ⊢
  field_simp
  ring

/-- Over `ℚ`, a nonzero vector has nonzero dot product with itself. -/
theorem dot3_self_ne_zero (n : Point3) (hn : n ≠ zero3) : dot3 n n ≠ 0 := by
  intro h
  apply hn
  simp only [dot3] at h
  have hx : n.x = 0 := by
    nlinarith [sq_nonneg n.x, sq_nonneg n.y, sq_nonneg n.z]
  have hy : n.y = 0 := by
    nlinarith [sq_nonneg n.x, sq_nonneg n.y, sq_nonneg n.z]
  have hz : n.z = 0 := by
    nlinarith [sq_nonneg n.x, sq_nonneg n.y, sq_nonneg n.z]
  cases n
  simp_all [zero3]

/-- Claim C1: with `n·d ≠ 0`, `getIntersectionPoint n q d p` returns
`p + t·d` with `t = n·(q − p) / (n·d)`; the returned point satisfies the
plane equation `n·(X − q) = 0` and lies on the line through `p` with
direction `d`, hence is the intersection of the line and the plane. -/
theorem claimC1_getIntersectionPoint (n q d p : Point3)
    (h : dot3 n d ≠ 0) :
    AlignObjects.getIntersectionPoint n q d p
      = add3 p (smul3 (dot3 n (sub3 q p) / dot3 n d) d) ∧
    dot3 n (sub3 (AlignObjects.getIntersectionPoint n q d p) q) = 0 ∧
    ∃ t : ℚ, AlignObjects.getIntersectionPoint n q d p
      = add3 p (smul3 t d) := by
  exact ⟨rfl, intersection_on_plane n q d p h,
    ⟨dot3 n (sub3 q p) / dot3 n d, rfl⟩⟩

/-- Instance of `claimC1_getIntersectionPoint` at a concrete input. -/
theorem claimC1_witness :
    AlignObjects.getIntersectionPoint ⟨0, 0, 1⟩ ⟨0, 0, 0⟩ ⟨0, 0, 1⟩ ⟨2, 3, 5⟩
      = add3 ⟨2, 3, 5⟩ (smul3 (dot3 ⟨0, 0, 1⟩ (sub3 ⟨0, 0, 0⟩ ⟨2, 3, 5⟩)
          / dot3 ⟨0, 0, 1⟩ ⟨0, 0, 1⟩) ⟨0, 0, 1⟩) ∧
    dot3 ⟨0, 0, 1⟩ (sub3 (AlignObjects.getIntersectionPoint ⟨0, 0, 1⟩
      ⟨0, 0, 0⟩ ⟨0, 0, 1⟩ ⟨2, 3, 5⟩) ⟨0, 0, 0⟩) = 0 ∧
    ∃ t : ℚ, AlignObjects.getIntersectionPoint ⟨0, 0, 1⟩ ⟨0, 0, 0⟩
      ⟨0, 0, 1⟩ ⟨2, 3, 5⟩ = add3 ⟨2, 3, 5⟩ (smul3 t ⟨0, 0, 1⟩) :=
  claimC1_getIntersectionPoint ⟨0, 0, 1⟩ ⟨0, 0, 0⟩ ⟨0, 0, 1⟩ ⟨2, 3, 5⟩
    (by norm_num [dot3])

/-- Claim C3: on a selection of at least four objects, every object after
the first three is moved to the intersection of the plane through the
first three positions with the line through the object's own position in
the direction of the plane's face normal `n` — its orthogonal projection
onto that plane. The moved position satisfies the plane equation
`n·(X − p0) = 0` (the plane also contains `p1` and `p2`) and differs from
the original position by a multiple of `n`. -/
theorem claimC3_alignObjects_projects (o0 o1 o2 o3 : SceneObj)
    (rest : List SceneObj) (n : Point3)
    (hdef : n = AlignObjects.getFaceNormalVector o0.pos o1.pos o2.pos)
    (hn : n ≠ zero3) :
    (((AlignObjects.alignObjects (o0 :: o1 :: o2 :: o3 :: rest)).map
        (fun o => o.pos)).drop 3
      = (o3 :: rest).map (fun o =>
          AlignObjects.getIntersectionPoint n o0.pos n o.pos)) ∧
    (∀ q : Point3,
      dot3 n (sub3 (AlignObjects.getIntersectionPoint n o0.pos n q)
        o0.pos) = 0 ∧
      ∃ t : ℚ, AlignObjects.getIntersectionPoint n o0.pos n q
        = add3 q (smul3 t n)) ∧
    dot3 n (sub3 o1.pos o0.pos) = 0 ∧
    dot3 n (sub3 o2.pos o0.pos) = 0 := by
  have hnn : dot3 n n ≠ 0 := dot3_self_ne_zero n hn
  refine ⟨?_, ?_, ?_, ?_⟩
  · rw [(alignObjects_spec o0 o1 o2 o3 rest).1, hdef]
    simp
  · intro q
    exact ⟨intersection_on_plane n o0.pos n q hnn,
      ⟨dot3 n (sub3 o0.pos q) / dot3 n n, rfl⟩⟩
  · rw [hdef]
    simp only [AlignObjects.getFaceNormalVector, cross3, dot3, sub3]
    ring
  · rw [hdef]
    simp only [AlignObjects.getFaceNormalVector, cross3, dot3, sub3]
    ring

/-- Instance of `claimC3_alignObjects_projects` at a concrete selection. -/
theorem claimC3_witness :
    (((AlignObjects.alignObjects
        (⟨⟨0, 0, 0⟩, none⟩ :: ⟨⟨1, 0, 0⟩, none⟩ :: ⟨⟨0, 1, 0⟩, none⟩ ::
          ⟨⟨2, 3, 5⟩, none⟩ :: [])).map (fun o => o.pos)).drop 3
      = (⟨⟨2, 3, 5⟩, (none : Option String)⟩ :: []).map
          (fun o : SceneObj => AlignObjects.getIntersectionPoint ⟨0, 0, 1⟩
            (⟨0, 0, 0⟩ : Point3) ⟨0, 0, 1⟩ o.pos)) ∧
    (∀ q : Point3,
      dot3 ⟨0, 0, 1⟩ (sub3 (AlignObjects.getIntersectionPoint ⟨0, 0, 1⟩
        (⟨0, 0, 0⟩ : Point3) ⟨0, 0, 1⟩ q) (⟨0, 0, 0⟩ : Point3)) = 0 ∧
      ∃ t : ℚ, AlignObjects.getIntersectionPoint ⟨0, 0, 1⟩
        (⟨0, 0, 0⟩ : Point3) ⟨0, 0, 1⟩ q
          = add3 q (smul3 t ⟨0, 0, 1⟩)) ∧
    dot3 ⟨0, 0, 1⟩ (sub3 (⟨1, 0, 0⟩ : Point3) (⟨0, 0, 0⟩ : Point3)) = 0 ∧
    dot3 ⟨0, 0, 1⟩ (sub3 (⟨0, 1, 0⟩ : Point3) (⟨0, 0, 0⟩ : Point3)) = 0 :=
  claimC3_alignObjects_projects ⟨⟨0, 0, 0⟩, none⟩ ⟨⟨1, 0, 0⟩, none⟩
    ⟨⟨0, 1, 0⟩, none⟩ ⟨⟨2, 3, 5⟩, none⟩ [] ⟨0, 0, 1⟩
    (by norm_num [AlignObjects.getFaceNormalVector, cross3, sub3,
      Point3.mk.injEq])
    (by norm_num [zero3, Point3.mk.injEq])

/-- Claim C6: `alignObjects` on four or more objects leaves the world
positions of the first three selected objects unchanged, and every
selected object ends with the parent it started with (the un-parent step
is undone by the re-parent step); only later objects are repositioned. -/
theorem claimC6_alignObjects_frame (objs : List SceneObj)
    (h4 : 4 ≤ objs.length) :
    ((AlignObjects.alignObjects objs).take 3).map (fun o => o.pos)
      = (objs.take 3).map (fun o => o.pos) ∧
    (AlignObjects.alignObjects objs).map (fun o => o.parent)
      = objs.map (fun o => o.parent) := by
  match objs, h4 with
  | o0 :: o1 :: o2 :: o3 :: rest, _ =>
    obtain ⟨h1, h2⟩ := alignObjects_spec o0 o1 o2 o3 rest
    refine ⟨?_, h2⟩
    rw [List.map_take, List.map_take, h1]
    simp [List.take_succ_cons]

/-- Instance of `claimC6_alignObjects_frame` at a concrete selection with
parents. -/
theorem claimC6_witness :
    ((AlignObjects.alignObjects
        ((⟨⟨0, 0, 0⟩, some "grpA"⟩ : SceneObj) :: ⟨⟨1, 0, 0⟩, none⟩ ::
          ⟨⟨0, 1, 0⟩, some "grpB"⟩ :: ⟨⟨2, 3, 5⟩, some "grpC"⟩ ::
            [])).take 3).map (fun o => o.pos)
      = (((⟨⟨0, 0, 0⟩, some "grpA"⟩ : SceneObj) :: ⟨⟨1, 0, 0⟩, none⟩ ::
          ⟨⟨0, 1, 0⟩, some "grpB"⟩ :: ⟨⟨2, 3, 5⟩, some "grpC"⟩ ::
            []).take 3).map (fun o => o.pos) ∧
    (AlignObjects.alignObjects
        ((⟨⟨0, 0, 0⟩, some "grpA"⟩ : SceneObj) :: ⟨⟨1, 0, 0⟩, none⟩ ::
          ⟨⟨0, 1, 0⟩, some "grpB"⟩ :: ⟨⟨2, 3, 5⟩, some "grpC"⟩ ::
            [])).map (fun o => o.parent)
      = ((⟨⟨0, 0, 0⟩, some "grpA"⟩ : SceneObj) :: ⟨⟨1, 0, 0⟩, none⟩ ::
          ⟨⟨0, 1, 0⟩, some "grpB"⟩ :: ⟨⟨2, 3, 5⟩, some "grpC"⟩ ::
            []).map (fun o => o.parent) :=
  claimC6_alignObjects_frame
    ((⟨⟨0, 0, 0⟩, some "grpA"⟩ : SceneObj) :: ⟨⟨1, 0, 0⟩, none⟩ ::
      ⟨⟨0, 1, 0⟩, some "grpB"⟩ :: ⟨⟨2, 3, 5⟩, some "grpC"⟩ :: [])
    (by decide)

/-- Claim C10: inside `alignObjects` the line direction handed to
`getIntersectionPoint` is the plane normal itself, so the unguarded
divisor `delta2 = np.dot(planeNormal, lineDirection)` equals `n·n`; when
the face normal of the three main points is nonzero that divisor is
nonzero and the division is safe. -/
theorem claimC10_division_safe (o0 o1 o2 o3 : SceneObj)
    (rest : List SceneObj) (n : Point3)
    (hdef : n = AlignObjects.getFaceNormalVector o0.pos o1.pos o2.pos)
    (hn : n ≠ zero3) :
    dot3 n n ≠ 0 ∧
    (((AlignObjects.alignObjects (o0 :: o1 :: o2 :: o3 :: rest)).map
        (fun o => o.pos)).drop 3
      = (o3 :: rest).map (fun o =>
          AlignObjects.getIntersectionPoint n o0.pos n o.pos)) := by
  refine ⟨dot3_self_ne_zero n hn, ?_⟩
  rw [(alignObjects_spec o0 o1 o2 o3 rest).1, hdef]
  simp

/-- Instance of `claimC10_division_safe` at a concrete selection. -/
theorem claimC10_witness :
    dot3 (⟨0, 0, 1⟩ : Point3) ⟨0, 0, 1⟩ ≠ 0 ∧
    (((AlignObjects.alignObjects
        (⟨⟨0, 0, 0⟩, none⟩ :: ⟨⟨1, 0, 0⟩, none⟩ :: ⟨⟨0, 1, 0⟩, none⟩ ::
          ⟨⟨2, 3, 5⟩, none⟩ :: [])).map (fun o => o.pos)).drop 3
      = (⟨⟨2, 3, 5⟩, (none : Option String)⟩ :: []).map
          (fun o : SceneObj => AlignObjects.getIntersectionPoint ⟨0, 0, 1⟩
            (⟨0, 0, 0⟩ : Point3) ⟨0, 0, 1⟩ o.pos)) :=
  claimC10_division_safe ⟨⟨0, 0, 0⟩, none⟩ ⟨⟨1, 0, 0⟩, none⟩
    ⟨⟨0, 1, 0⟩, none⟩ ⟨⟨2, 3, 5⟩, none⟩ [] ⟨0, 0, 1⟩
    (by norm_num [AlignObjects.getFaceNormalVector, cross3, sub3,
      Point3.mk.injEq])
    (by norm_num [zero3, Point3.mk.injEq])

/-- Floor of a rational (`q.num / q.den` with floor-style integer
division), kept as an explicit definition so that it evaluates inside the
kernel. -/
def ratFloor (q : ℚ) : ℤ := q.num / (q.den : ℤ)

/-- Python's `round(x, 4)` on an exact value: round `x * 10⁴` to the
nearest integer, ties to the even integer (banker's rounding), and scale
back. -/
def pyRoundInt (q : ℚ) : ℤ :=
  let f := ratFloor q
  let r := q - (f : ℚ)
  if r < 1/2 then f
  else if 1/2 < r then f + 1
  else if f % 2 = 0 then f else f + 1

def round4 (q : ℚ) : ℚ := (pyRoundInt (q * 10000) : ℚ) / 10000

/-- `[round(float(position[i]), 4) for i in equation]`: each coordinate
rounded to 4 decimal places. -/
def roundPoint3 (p : Point3) : Point3 :=
  ⟨round4 p.x, round4 p.y, round4 p.z⟩

theorem coord_roundPoint3 (p : Point3) (i : Fin 3) :
    coord (roundPoint3 p) i = round4 (coord p i) := by
  rcases i with ⟨iv, hlt⟩
  rcases iv with _ | _ | _ | iv
  · rfl
  · rfl
  · rfl
  · omega

/-- The value `calculateEquation` returns
(`idx, highestGap, variables, expr, [x, y, z]`): `idx` selects the
dominant axis; the sympy symbols `highestGap`/`variables`/`[x, y, z]` are
determined by `idx`, and the two selected line equations `expr` are
determined by the first point and the coordinate differences
`diff = (A, B, C)`, so those numeric fields carry the whole return
value. -/
structure LineSolutions where
  idx : Fin 3
  firstPoint : Point3
  diff : Point3
deriving DecidableEq, Repr

namespace AlignCurvePoints

/-- `AlignCurvePoints.calculateEquation` (general.py:406-438), on the
world positions of the first and last selected points. `A, B, C` are the
coordinate differences; `MAX = max(|A|, |B|, |C|)`; the first matching
branch of `abs(A) == MAX`, `abs(B) == MAX`, `abs(C) == MAX` fixes the
dominant axis `idx` (the final `else: return` yields `none`). -/
def calculateEquation (firstPoint lastPoint : Point3) :
    Option LineSolutions :=
  let A := lastPoint.x - firstPoint.x
  let B := lastPoint.y - firstPoint.y
  let C := lastPoint.z - firstPoint.z
  let MAX := max |A| (max |B| |C|)
  if |A| = MAX then some ⟨⟨0, by omega⟩, firstPoint, ⟨A, B, C⟩⟩
  else if |B| = MAX then some ⟨⟨1, by omega⟩, firstPoint, ⟨A, B, C⟩⟩
  else if |C| = MAX then some ⟨⟨2, by omega⟩, firstPoint, ⟨A, B, C⟩⟩
  else none

/-- The point `sympy.solve(fx, variables)` produces inside
`getFinalPosition`, with `position[highestGap] = value` inserted and
before rounding. Substituting `value` for the dominant symbol leaves two
linear equations in the two remaining symbols; when the dominant
coefficient is nonzero their unique solution is the closed form written
here (`solvedPosition_solves_equations` below checks it against the
source's equations `expr1`, `expr2`, `expr3`). -/
def solvedPosition (pointPosition : Point3) (solutions : LineSolutions) :
    Point3 :=
  let p1 := solutions.firstPoint
  let d := solutions.diff
  match solutions.idx with
  | ⟨0, _⟩ =>
      let value := pointPosition.x
      ⟨value, p1.y + d.y * ((value - p1.x) / d.x),
        p1.z + d.z * ((value - p1.x) / d.x)⟩
  | ⟨1, _⟩ =>
      let value := pointPosition.y
      ⟨p1.x + d.x * ((value - p1.y) / d.y), value,
        p1.z + d.z * ((value - p1.y) / d.y)⟩
  | ⟨2, _⟩ =>
      let value := pointPosition.z
      ⟨p1.x + d.x * ((value - p1.z) / d.z),
        p1.y + d.y * ((value - p1.z) / d.z), value⟩

/-- `AlignCurvePoints.getFinalPosition` (general.py:441-448): solve the
two substituted equations, put the dominant coordinate back, and round
every coordinate to 4 decimal places. -/
def getFinalPosition (pointPosition : Point3)
    (solutions : LineSolutions) : Point3 :=
  roundPoint3 (solvedPosition pointPosition solutions)

/-- `AlignCurvePoints.alignCurveStraight` (general.py:376-396), on the
geometric data: the equation is built from the first and last selected
points, and every control-vertex world position of the copied curve is
sent through `getFinalPosition` (the selection query, `copyCurve`
duplication and `pm.move` writes are host-side scene traffic). Were
`calculateEquation` to return `None`, unpacking it inside
`getFinalPosition` would raise; that is the `none` case. -/
def alignCurveStraight (firstPoint lastPoint : Point3)
    (copiedCurveVertex : List Point3) : Option (List Point3) :=
  match calculateEquation firstPoint lastPoint with
  | none => none
  | some solutions =>
      some (copiedCurveVertex.map (fun q => getFinalPosition q solutions))

end AlignCurvePoints

/-- What `calculateEquation` packs into its result: the first point and
the difference vector are carried verbatim, and the dominant coefficient
realizes `MAX`. -/
theorem calculateEquation_spec (p1 p2 : Point3) (sol : LineSolutions)
    (hsol : AlignCurvePoints.calculateEquation p1 p2 = some sol) :
    sol.firstPoint = p1 ∧ sol.diff = sub3 p2 p1 ∧
    |coord sol.diff sol.idx|
      = max |(sub3 p2 p1).x| (max |(sub3 p2 p1).y| |(sub3 p2 p1).z|) := by
  unfold AlignCurvePoints.calculateEquation at hsol
  simp only [] at hsol
  split_ifs at hsol with h1 h2 h3
  · cases hsol
    exact ⟨rfl, rfl, h1⟩
  · cases hsol
    exact ⟨rfl, rfl, h2⟩
  · cases hsol
    exact ⟨rfl, rfl, h3⟩

/-- With distinct endpoints the dominant coefficient is nonzero, so the
substituted system `fx` has a unique solution for `sympy.solve` to
return. -/
theorem dominant_ne_zero (p1 p2 : Point3) (sol : LineSolutions)
    (hne : p1 ≠ p2)
    (hsol : AlignCurvePoints.calculateEquation p1 p2 = some sol) :
    coord sol.diff sol.idx ≠ 0 := by
  obtain ⟨-, -, hmax⟩ := calculateEquation_spec p1 p2 sol hsol
  intro h0
  rw [h0, abs_zero] at hmax
  have hm := hmax.symm
  have ha : (sub3 p2 p1).x = 0 := by
    have h := le_max_left |(sub3 p2 p1).x|
      (max |(sub3 p2 p1).y| |(sub3 p2 p1).z|)
    rw [hm] at h
    exact abs_eq_zero.mp (le_antisymm h (abs_nonneg _))
  have hbc := le_max_right |(sub3 p2 p1).x|
    (max |(sub3 p2 p1).y| |(sub3 p2 p1).z|)
  rw [hm] at hbc
  have hb : (sub3 p2 p1).y = 0 :=
    abs_eq_zero.mp (le_antisymm (le_trans (le_max_left _ _) hbc)
      (abs_nonneg _))
  have hc : (sub3 p2 p1).z = 0 :=
    abs_eq_zero.mp (le_antisymm (le_trans (le_max_right _ _) hbc)
      (abs_nonneg _))
  apply hne
  cases p1 with
  | mk x1 y1 z1 =>
    cases p2 with
    | mk x2 y2 z2 =>
      simp only [sub3] at ha hb hc
      rw [Point3.mk.injEq]
      exact ⟨by linarith, by linarith, by linarith⟩

/-- The pre-rounding point produced by `getFinalPosition` lies exactly on
the parametric line `p1 + t·(p2 − p1)`. -/
theorem solvedPosition_on_line (p1 p2 q : Point3) (sol : LineSolutions)
    (hne : p1 ≠ p2)
    (hsol : AlignCurvePoints.calculateEquation p1 p2 = some sol) :
    ∃ t : ℚ, AlignCurvePoints.solvedPosition q sol
      = add3 p1 (smul3 t (sub3 p2 p1)) := by
  obtain ⟨hf, hd, -⟩ := calculateEquation_spec p1 p2 sol hsol
  have hnz := dominant_ne_zero p1 p2 sol hne hsol
  rcases sol with ⟨⟨iv, hlt⟩, fp, d⟩
  dsimp only at hf hd hnz
  rw [hf, hd]
  rw [hd] at hnz
  rcases iv with _ | _ | _ | iv
  · have ha : (sub3 p2 p1).x ≠ 0 := by simpa [coord] using hnz
    refine ⟨(q.x - p1.x) / (sub3 p2 p1).x, ?_⟩
    simp only [AlignCurvePoints.solvedPosition, add3, smul3]
    rw [Point3.mk.injEq]
    refine ⟨?_, ?_, ?_⟩ <;> field_simp <;> ring
  · have ha : (sub3 p2 p1).y ≠ 0 := by simpa [coord] using hnz
    refine ⟨(q.y - p1.y) / (sub3 p2 p1).y, ?_⟩
    simp only [AlignCurvePoints.solvedPosition, add3, smul3]
    rw [Point3.mk.injEq]
    refine ⟨?_, ?_, ?_⟩ <;> field_simp <;> ring
  · have ha : (sub3 p2 p1).z ≠ 0 := by simpa [coord] using hnz
    refine ⟨(q.z - p1.z) / (sub3 p2 p1).z, ?_⟩
    simp only [AlignCurvePoints.solvedPosition, add3, smul3]
    rw [Point3.mk.injEq]
    refine ⟨?_, ?_, ?_⟩ <;> field_simp <;> ring
  · omega

/-- Faithfulness of the closed-form solve step: the pre-rounding point
satisfies all three of the source's line equations `expr1`, `expr2`,
`expr3` (with `A, B, C` the coordinate differences), in particular the
two equations `sympy.solve` is given in each branch. -/
theorem solvedPosition_solves_equations (p1 p2 q : Point3)
    (sol : LineSolutions) (hne : p1 ≠ p2)
    (hsol : AlignCurvePoints.calculateEquation p1 p2 = some sol) :
    (p2.y - p1.y) * (AlignCurvePoints.solvedPosition q sol).x
        - (p2.x - p1.x) * (AlignCurvePoints.solvedPosition q sol).y
      = (p2.y - p1.y) * p1.x - (p2.x - p1.x) * p1.y ∧
    (p2.z - p1.z) * (AlignCurvePoints.solvedPosition q sol).y
        - (p2.y - p1.y) * (AlignCurvePoints.solvedPosition q sol).z
      = (p2.z - p1.z) * p1.y - (p2.y - p1.y) * p1.z ∧
    (p2.x - p1.x) * (AlignCurvePoints.solvedPosition q sol).z
        - (p2.z - p1.z) * (AlignCurvePoints.solvedPosition q sol).x
      = (p2.x - p1.x) * p1.z - (p2.z - p1.z) * p1.x := by
  obtain ⟨t, ht⟩ := solvedPosition_on_line p1 p2 q sol hne hsol
  rw [ht]
  simp only [add3, smul3, sub3]
  refine ⟨by ring, by ring, by ring⟩

/-- The dominant coordinate of the pre-rounding point is the query
point's own coordinate (`position[highestGap] = value`). -/
theorem solvedPosition_coord (q : Point3) (sol : LineSolutions) :
    coord (AlignCurvePoints.solvedPosition q sol) sol.idx
      = coord q sol.idx := by
  rcases sol with ⟨⟨iv, hlt⟩, fp, d⟩
  rcases iv with _ | _ | _ | iv
  · rfl
  · rfl
  · rfl
  · omega

/-- Claim C2: for distinct endpoints `P1, P2` and any query point `Q`,
`getFinalPosition` applied to `Q` and the solutions from
`calculateEquation(P1, P2)` is a point of the line through `P1` and `P2`
with each coordinate rounded to 4 decimal places; consequently
`alignCurveStraight` places every control point of the copied curve on
that line (up to the same rounding). -/
theorem claimC2_alignCurveStraight (p1 p2 q : Point3) (cvs : List Point3)
    (sol : LineSolutions) (hne : p1 ≠ p2)
    (hsol : AlignCurvePoints.calculateEquation p1 p2 = some sol) :
    (∃ t : ℚ, AlignCurvePoints.getFinalPosition q sol
        = roundPoint3 (add3 p1 (smul3 t (sub3 p2 p1)))) ∧
    ∀ out, AlignCurvePoints.alignCurveStraight p1 p2 cvs = some out →
      ∀ r ∈ out, ∃ t : ℚ,
        r = roundPoint3 (add3 p1 (smul3 t (sub3 p2 p1))) := by
  constructor
  · obtain ⟨t, ht⟩ := solvedPosition_on_line p1 p2 q sol hne hsol
    exact ⟨t, by unfold AlignCurvePoints.getFinalPosition; rw [ht]⟩
  · intro out hout r hr
    unfold AlignCurvePoints.alignCurveStraight at hout
    rw [hsol] at hout
    cases hout
    simp only [List.mem_map] at hr
    obtain ⟨a, -, rfl⟩ := hr
    obtain ⟨t, ht⟩ := solvedPosition_on_line p1 p2 a sol hne hsol
    exact ⟨t, by unfold AlignCurvePoints.getFinalPosition; rw [ht]⟩

/-- Instance of `claimC2_alignCurveStraight` at a concrete curve. -/
theorem claimC2_witness :
    (∃ t : ℚ, AlignCurvePoints.getFinalPosition ⟨5, 7, 9⟩
        ⟨⟨0, by omega⟩, ⟨0, 0, 0⟩, ⟨1, 0, 0⟩⟩
        = roundPoint3 (add3 ⟨0, 0, 0⟩ (smul3 t
            (sub3 ⟨1, 0, 0⟩ ⟨0, 0, 0⟩)))) ∧
    ∀ out, AlignCurvePoints.alignCurveStraight ⟨0, 0, 0⟩ ⟨1, 0, 0⟩
        [⟨5, 7, 9⟩] = some out →
      ∀ r ∈ out, ∃ t : ℚ,
        r = roundPoint3 (add3 ⟨0, 0, 0⟩ (smul3 t
          (sub3 ⟨1, 0, 0⟩ ⟨0, 0, 0⟩))) :=
  claimC2_alignCurveStraight ⟨0, 0, 0⟩ ⟨1, 0, 0⟩ ⟨5, 7, 9⟩ [⟨5, 7, 9⟩]
    ⟨⟨0, by omega⟩, ⟨0, 0, 0⟩, ⟨1, 0, 0⟩⟩
    (by simp [Point3.mk.injEq])
    (by norm_num [AlignCurvePoints.calculateEquation,
      LineSolutions.mk.injEq, Point3.mk.injEq, Fin.mk.injEq])

/-- Claim C9: the straightened position preserves the query point's
coordinate on the dominant axis: the `idx`-th coordinate of the output is
the `idx`-th coordinate of `Q` rounded to 4 decimal places, where `idx`
is the axis `calculateEquation` selects — an axis realizing the largest
of `|x2−x1|, |y2−y1|, |z2−z1|`. -/
theorem claimC9_dominant_axis (p1 p2 q : Point3) (sol : LineSolutions)
    (hne : p1 ≠ p2)
    (hsol : AlignCurvePoints.calculateEquation p1 p2 = some sol) :
    coord (AlignCurvePoints.getFinalPosition q sol) sol.idx
      = round4 (coord q sol.idx) ∧
    |coord (sub3 p2 p1) sol.idx|
      = max |(sub3 p2 p1).x| (max |(sub3 p2 p1).y| |(sub3 p2 p1).z|) := by
  obtain ⟨-, hd, hmax⟩ := calculateEquation_spec p1 p2 sol hsol
  constructor
  · unfold AlignCurvePoints.getFinalPosition
    rw [coord_roundPoint3, solvedPosition_coord]
  · rw [hd] at hmax
    exact hmax

/-- Instance of `claimC9_dominant_axis` at a concrete input. -/
theorem claimC9_witness :
    coord (AlignCurvePoints.getFinalPosition ⟨5, 7, 9⟩
        ⟨⟨0, by omega⟩, ⟨0, 0, 0⟩, ⟨1, 0, 0⟩⟩)
        (⟨⟨0, by omega⟩, ⟨0, 0, 0⟩, ⟨1, 0, 0⟩⟩ : LineSolutions).idx
      = round4 (coord ⟨5, 7, 9⟩
          (⟨⟨0, by omega⟩, ⟨0, 0, 0⟩, ⟨1, 0, 0⟩⟩ : LineSolutions).idx) ∧
    |coord (sub3 ⟨1, 0, 0⟩ ⟨0, 0, 0⟩)
        (⟨⟨0, by omega⟩, ⟨0, 0, 0⟩, ⟨1, 0, 0⟩⟩ : LineSolutions).idx|
      = max |(sub3 ⟨1, 0, 0⟩ ⟨0, 0, 0⟩).x|
          (max |(sub3 ⟨1, 0, 0⟩ ⟨0, 0, 0⟩).y|
            |(sub3 ⟨1, 0, 0⟩ ⟨0, 0, 0⟩).z|) :=
  claimC9_dominant_axis ⟨0, 0, 0⟩ ⟨1, 0, 0⟩ ⟨5, 7, 9⟩
    ⟨⟨0, by omega⟩, ⟨0, 0, 0⟩, ⟨1, 0, 0⟩⟩
    (by simp [Point3.mk.injEq])
    (by norm_num [AlignCurvePoints.calculateEquation,
      LineSolutions.mk.injEq, Point3.mk.injEq, Fin.mk.injEq])

namespace AlignCurvePoints

/-- `AlignCurvePoints.calculateEquation` with its scene reads made
explicit (general.py:406-438). The source's arguments `firstPoint` and
`lastPoint` are scene nodes (curve CVs), and the method's first two
statements, `firstPoint.getPosition(space="world")` and
`lastPoint.getPosition(space="world")`, read the nodes' current world
positions out of the live scene. The ambient scene is modelled as the
world-position query `String → Point3`; it is threaded through and
returned unchanged, because the method only reads. The remainder of the
body is the pure computation `calculateEquation` on the two positions
read. -/
def calculateEquationOnScene (world : String → Point3)
    (firstPoint lastPoint : String) :
    Option LineSolutions × (String → Point3) :=
  let p1 := world firstPoint
  let p2 := world lastPoint
  (calculateEquation p1 p2, world)

end AlignCurvePoints

/-- A scene snapshot in which the CV named `cv1` sits at `(1, 0, 0)` and
every other node at the origin. -/
def worldA : String → Point3 :=
  fun n => if n = "cv1" then ⟨1, 0, 0⟩ else ⟨0, 0, 0⟩

/-- The same scene after `cv1` moved to `(0, 2, 0)`: the state change
between two invocations that claim C7 says cannot matter. -/
def worldB : String → Point3 :=
  fun n => if n = "cv1" then ⟨0, 2, 0⟩ else ⟨0, 0, 0⟩

/-- Counterexample to claim C7 as stated: `calculateEquation` does read
state outside its arguments — the live world positions of its two
argument nodes. Two invocations with the same arguments `"cv0"`, `"cv1"`
return different results after `cv1` moves between the calls (the
dominant axis flips from x to y). -/
theorem claimC7_counterexample :
    (AlignCurvePoints.calculateEquationOnScene worldA "cv0" "cv1").1
      ≠ (AlignCurvePoints.calculateEquationOnScene worldB "cv0" "cv1").1
      := by
  have hA : (AlignCurvePoints.calculateEquationOnScene worldA
        "cv0" "cv1").1
      = some ⟨⟨0, by omega⟩, ⟨0, 0, 0⟩, ⟨1, 0, 0⟩⟩ := by
    have e0 : worldA "cv0" = (⟨0, 0, 0⟩ : Point3) := rfl
    have e1 : worldA "cv1" = (⟨1, 0, 0⟩ : Point3) := rfl
    show AlignCurvePoints.calculateEquation (worldA "cv0")
      (worldA "cv1") = _
    rw [e0, e1]
    norm_num [AlignCurvePoints.calculateEquation,
      LineSolutions.mk.injEq, Point3.mk.injEq, Fin.mk.injEq]
  have hB : (AlignCurvePoints.calculateEquationOnScene worldB
        "cv0" "cv1").1
      = some ⟨⟨1, by omega⟩, ⟨0, 0, 0⟩, ⟨0, 2, 0⟩⟩ := by
    have e0 : worldB "cv0" = (⟨0, 0, 0⟩ : Point3) := rfl
    have e1 : worldB "cv1" = (⟨0, 2, 0⟩ : Point3) := rfl
    show AlignCurvePoints.calculateEquation (worldB "cv0")
      (worldB "cv1") = _
    rw [e0, e1]
    norm_num [AlignCurvePoints.calculateEquation,
      LineSolutions.mk.injEq, Point3.mk.injEq, Fin.mk.injEq]
  rw [hA, hB]
  simp [LineSolutions.mk.injEq, Fin.mk.injEq]

/-- Claim C7 (amended): `getIntersectionPoint` and `getFinalPosition`
are stateless and deterministic — their bodies apply numpy/sympy to the
parameters only, so they embed as pure functions and equal arguments
give equal results. `calculateEquation` modifies no scene state (the
scene comes back unchanged from both invocations), but it reads the live
world positions of its two argument nodes; it is deterministic only in
its arguments together with those reads: two invocations whose argument
nodes carry equal world positions return equal results — so its result
depends on nothing in the scene beyond the two positions read. -/
theorem claimC7_stateless (n1 q1 d1 p1 n2 q2 d2 p2 v1 v2 : Point3)
    (s1 s2 : LineSolutions) (w1 w2 : String → Point3)
    (f1 l1 f2 l2 : String)
    (h1 : n1 = n2) (h2 : q1 = q2) (h3 : d1 = d2) (h4 : p1 = p2)
    (h5 : v1 = v2) (h6 : s1 = s2)
    (hf : w1 f1 = w2 f2) (hl : w1 l1 = w2 l2) :
    AlignObjects.getIntersectionPoint n1 q1 d1 p1
      = AlignObjects.getIntersectionPoint n2 q2 d2 p2 ∧
    AlignCurvePoints.getFinalPosition v1 s1
      = AlignCurvePoints.getFinalPosition v2 s2 ∧
    (AlignCurvePoints.calculateEquationOnScene w1 f1 l1).2 = w1 ∧
    (AlignCurvePoints.calculateEquationOnScene w2 f2 l2).2 = w2 ∧
    (AlignCurvePoints.calculateEquationOnScene w1 f1 l1).1
      = (AlignCurvePoints.calculateEquationOnScene w2 f2 l2).1 := by
  subst h1 h2 h3 h4 h5 h6
  refine ⟨rfl, rfl, rfl, rfl, ?_⟩
  unfold AlignCurvePoints.calculateEquationOnScene
  rw [hf, hl]

/-- Instance of `claimC7_stateless` at concrete arguments: the same node
names queried twice in the unchanged scene `worldA`. -/
theorem claimC7_witness :
    AlignObjects.getIntersectionPoint ⟨0, 0, 1⟩ ⟨0, 0, 0⟩ ⟨0, 0, 1⟩
        ⟨2, 3, 5⟩
      = AlignObjects.getIntersectionPoint ⟨0, 0, 1⟩ ⟨0, 0, 0⟩ ⟨0, 0, 1⟩
        ⟨2, 3, 5⟩ ∧
    AlignCurvePoints.getFinalPosition ⟨5, 7, 9⟩
        ⟨⟨0, by omega⟩, ⟨0, 0, 0⟩, ⟨1, 0, 0⟩⟩
      = AlignCurvePoints.getFinalPosition ⟨5, 7, 9⟩
        ⟨⟨0, by omega⟩, ⟨0, 0, 0⟩, ⟨1, 0, 0⟩⟩ ∧
    (AlignCurvePoints.calculateEquationOnScene worldA "cv0" "cv1").2
      = worldA ∧
    (AlignCurvePoints.calculateEquationOnScene worldA "cv0" "cv1").2
      = worldA ∧
    (AlignCurvePoints.calculateEquationOnScene worldA "cv0" "cv1").1
      = (AlignCurvePoints.calculateEquationOnScene worldA "cv0"
          "cv1").1 :=
  claimC7_stateless ⟨0, 0, 1⟩ ⟨0, 0, 0⟩ ⟨0, 0, 1⟩ ⟨2, 3, 5⟩
    ⟨0, 0, 1⟩ ⟨0, 0, 0⟩ ⟨0, 0, 1⟩ ⟨2, 3, 5⟩ ⟨5, 7, 9⟩ ⟨5, 7, 9⟩
    ⟨⟨0, by omega⟩, ⟨0, 0, 0⟩, ⟨1, 0, 0⟩⟩
    ⟨⟨0, by omega⟩, ⟨0, 0, 0⟩, ⟨1, 0, 0⟩⟩
    worldA worldA "cv0" "cv1" "cv0" "cv1"
    rfl rfl rfl rfl rfl rfl rfl rfl

namespace Wheel

/-- `Wheel.createExpression` (quickRig.py:267-301): the wheel-roll MEL
expression assembled from the five node names. `expr1` declares the
channels, copies the stored previous position into `prev`, and reads the
current translation; `expr2` computes the travelled distance; `expr3`
rolls the locator; `expr4` stores the current translation back. The
final `pm.expression(s=expr, ...)` hands the string to the host. -/
def createExpression (ctrl offset loc orient prev : String) : String :=
  let br := "\n"
  let expr1 := "float $R = " ++ ctrl ++ ".Radius;" ++ br
    ++ "float $A = " ++ ctrl ++ ".AutoRoll;" ++ br
    ++ "float $J = " ++ loc ++ ".rotateX;" ++ br
    ++ "float $C = 2 * 3.141 * $R;" ++ br
    ++ "float $O = " ++ orient ++ ".rotateY;" ++ br
    ++ "float $S = " ++ offset ++ ".scaleY;" ++ br
    ++ "float $pX = " ++ offset ++ ".PrevPosX;" ++ br
    ++ "float $pY = " ++ offset ++ ".PrevPosY;" ++ br
    ++ "float $pZ = " ++ offset ++ ".PrevPosZ;" ++ br
    ++ prev ++ ".translateX = $pX;" ++ br
    ++ prev ++ ".translateY = $pY;" ++ br
    ++ prev ++ ".translateZ = $pZ;" ++ br
    ++ "float $nX = " ++ offset ++ ".translateX;" ++ br
    ++ "float $nY = " ++ offset ++ ".translateY;" ++ br
    ++ "float $nZ = " ++ offset ++ ".translateZ;" ++ br ++ br
  let expr2 := "float $D = `mag<<$nX-$pX, $nY-$pY, $nZ-$pZ>>`;"
    ++ br ++ br
  let expr3 := loc ++ ".rotateX = $J" ++ " + ($D/$C) * 360" ++ " * $A"
    ++ " * 1" ++ " * sin(deg_to_rad($O))" ++ " / $S;" ++ br ++ br
  let expr4 := offset ++ ".PrevPosX = $nX;" ++ br
    ++ offset ++ ".PrevPosY = $nY;" ++ br
    ++ offset ++ ".PrevPosZ = $nZ;" ++ br
  expr1 ++ expr2 ++ expr3 ++ expr4

end Wheel

/-- The wheel-roll expression as the specification describes it, grouped
by role: the channel declarations (with the circumference
`$C = 2 * 3.141 * ctrl.Radius`), (1) the copy of the stored PrevPosX/Y/Z
of `offset` into `prev`'s translate, the read of `offset`'s current
translation, (2) the travelled distance `$D` as the magnitude of the
difference between current and stored translation, (3) the roll
statement `loc.rotateX = $J + ($D/$C) * 360 * $A * 1 *
sin(deg_to_rad($O)) / $S`, and (4) the write-back of the current
translation into PrevPosX/Y/Z. -/
def wheelRollExprSpec (ctrl offset loc orient prev : String) : String :=
  let declarations := "float $R = " ++ ctrl ++ ".Radius;" ++ "\n"
    ++ "float $A = " ++ ctrl ++ ".AutoRoll;" ++ "\n"
    ++ "float $J = " ++ loc ++ ".rotateX;" ++ "\n"
    ++ "float $C = 2 * 3.141 * $R;" ++ "\n"
    ++ "float $O = " ++ orient ++ ".rotateY;" ++ "\n"
    ++ "float $S = " ++ offset ++ ".scaleY;" ++ "\n"
    ++ "float $pX = " ++ offset ++ ".PrevPosX;" ++ "\n"
    ++ "float $pY = " ++ offset ++ ".PrevPosY;" ++ "\n"
    ++ "float $pZ = " ++ offset ++ ".PrevPosZ;" ++ "\n"
  let copyPrev := prev ++ ".translateX = $pX;" ++ "\n"
    ++ prev ++ ".translateY = $pY;" ++ "\n"
    ++ prev ++ ".translateZ = $pZ;" ++ "\n"
  let readCurrent := "float $nX = " ++ offset ++ ".translateX;" ++ "\n"
    ++ "float $nY = " ++ offset ++ ".translateY;" ++ "\n"
    ++ "float $nZ = " ++ offset ++ ".translateZ;" ++ "\n" ++ "\n"
  let travelled := "float $D = `mag<<$nX-$pX, $nY-$pY, $nZ-$pZ>>`;"
    ++ "\n" ++ "\n"
  let roll := loc ++ ".rotateX = $J" ++ " + ($D/$C) * 360" ++ " * $A"
    ++ " * 1" ++ " * sin(deg_to_rad($O))" ++ " / $S;" ++ "\n" ++ "\n"
  let writeBack := offset ++ ".PrevPosX = $nX;" ++ "\n"
    ++ offset ++ ".PrevPosY = $nY;" ++ "\n"
    ++ offset ++ ".PrevPosZ = $nZ;" ++ "\n"
  declarations ++ copyPrev ++ readCurrent ++ travelled ++ roll
    ++ writeBack

/-- Claim C4: for every five node names, `Wheel.createExpression`
generates exactly the wheel-roll expression described by the
specification (declaring `$C = 2 * 3.141 * ctrl.Radius`, copying the
stored previous position into `prev`, measuring the travelled distance,
rolling `loc.rotateX` by `$J + ($D/$C) * 360 * $A * 1 *
sin(deg_to_rad($O)) / $S`, and writing the current translation back);
being a total function of the five name arguments, the generated string
is deterministic in them. -/
theorem claimC4_createExpression (ctrl offset loc orient prev : String) :
    Wheel.createExpression ctrl offset loc orient prev
      = wheelRollExprSpec ctrl offset loc orient prev := by
  unfold Wheel.createExpression wheelRollExprSpec
  simp only [String.append_assoc]

/-- A Python runtime error relevant here: `TypeError` from subscripting a
non-subscriptable object, `IndexError` from indexing past the end of a
list. -/
inductive PyErr where
  | typeError
  | indexError
deriving DecidableEq, Repr

/-- Python's `str.split(sep)` with an explicit single-character
separator: consecutive separators yield empty fields, and splitting the
empty string yields `[""]`. Defined structurally so it evaluates in the
kernel. -/
def pySplit (sep : Char) : List Char → List (List Char)
  | [] => [[]]
  | c :: rest =>
    match pySplit sep rest with
    | [] => [[]]
    | g :: gs => if c = sep then [] :: g :: gs else (c :: g) :: gs

def pySplitStr (sep : Char) (s : String) : List String :=
  (pySplit sep s.data).map (fun l => String.mk l)

namespace RigGroups

/-- `self.groupNames` (general.py:272-277). -/
def groupNames : List (String × List String) :=
  [("assetName", ["rig", "MODEL"]),
   ("rig", ["controllers", "skeletons", "geoForBind", "extraNodes"]),
   ("skeletons", ["bindBones", "rigBones"])]

/-- `pm.objExists` over the modelled scene: a list of
`(groupName, parentName?)` pairs. -/
def objExists (scene : List (String × Option String))
    (name : String) : Bool :=
  scene.any (fun g => g.1 == name)

/-- `pm.group(em=True, n=name)`: create an empty group at world level. -/
def createEmptyGroup (scene : List (String × Option String))
    (name : String) : List (String × Option String) :=
  scene ++ [(name, none)]

/-- `pm.parent(child, parents)`: record `parents` as the parent of every
node named `child`. -/
def parentTo (scene : List (String × Option String))
    (child parents : String) : List (String × Option String) :=
  scene.map (fun g => if g.1 == child then (g.1, some parents) else g)

/-- `RigGroups.createRigGroups` (general.py:280-289). When `assetName` is
truthy (non-empty) the source executes
`self.groupNames[assetName] = self.groupNames.pop["assetName"]`, which
subscripts the bound method `pop` instead of calling it; Python raises
`TypeError: 'builtin_function_or_method' object is not subscriptable`
before the loop runs, so the scene is returned unchanged alongside the
error. With an empty (falsy) `assetName` the renaming line is skipped and
the loop creates the missing groups and parents each child under its
parent. -/
def createRigGroups (assetName : String)
    (scene : List (String × Option String)) :
    List (String × Option String) × Option PyErr :=
  if assetName ≠ "" then (scene, some PyErr.typeError)
  else
    let final := groupNames.foldl (fun sc pc =>
      let parents := pc.1
      let children := pc.2
      let sc1 := if objExists sc parents then sc
        else createEmptyGroup sc parents
      children.foldl (fun sc2 child =>
        let sc3 := if objExists sc2 child then sc2
          else createEmptyGroup sc2 child
        parentTo sc3 child parents) sc1) scene
    (final, none)

end RigGroups

namespace Car

/-- `os.path.basename`: the component after the last `/`. -/
def basename (path : String) : String :=
  (pySplitStr '/' path).getLastD ""

/-- The asset-name computation of `Car.createRigGroups`
(quickRig.py:122-128): an unsaved scene (`pm.Env().sceneName()` empty)
falls back to `"assetName"`; otherwise the name is field 1 of the scene
basename split on `_`, and `sceneName.split("_")[1]` raises `IndexError`
when the basename contains no underscore. -/
def deriveAssetName (fullPath : String) : Except PyErr String :=
  if fullPath = "" then .ok "assetName"
  else
    match pySplitStr '_' (basename fullPath) with
    | _ :: second :: _ => .ok second
    | _ => .error PyErr.indexError

/-- `Car.createRigGroups` (quickRig.py:122-130), with the host scene path
passed in: derive the asset name, then delegate to
`RigGroups.createRigGroups`. -/
def createRigGroups (fullPath : String)
    (scene : List (String × Option String)) :
    List (String × Option String) × Option PyErr :=
  match deriveAssetName fullPath with
  | .error e => (scene, some e)
  | .ok assetName => RigGroups.createRigGroups assetName scene

end Car

/-- Counterexample to claim C5 as stated: a saved scene whose basename
has an empty second underscore-separated field (here `car__rig.ma`)
makes `Car.createRigGroups` pass the empty — falsy — asset name, the
buggy `pop` line is skipped, and the call succeeds with no `TypeError`;
so `Car.createRigGroups` does not always fail. -/
theorem claimC5_counterexample :
    Car.deriveAssetName "car__rig.ma" = Except.ok "" ∧
    (Car.createRigGroups "car__rig.ma" []).2 = none := by
  refine ⟨rfl, by decide⟩

/-- A non-empty asset name sends `RigGroups.createRigGroups` straight to
the `TypeError`, scene untouched. -/
theorem rigGroups_typeError (assetName : String)
    (scene : List (String × Option String)) (h : assetName ≠ "") :
    RigGroups.createRigGroups assetName scene
      = (scene, some PyErr.typeError) := by
  unfold RigGroups.createRigGroups
  rw [if_pos h]

/-- Claim C5 (amended): for every non-empty `assetName`,
`RigGroups.createRigGroups` raises a `TypeError` before creating or
reparenting any group and leaves the scene unchanged; consequently
`Car.createRigGroups` fails that way whenever the asset name it derives
is non-empty — in particular always on an unsaved scene, which passes
`"assetName"`. (It does not always fail: an underscoreless basename
raises `IndexError` while deriving the name, and a basename whose second
`_`-field is empty passes a falsy name and succeeds.) -/
theorem claimC5_typeError (assetName : String)
    (scene : List (String × Option String)) (h : assetName ≠ "") :
    RigGroups.createRigGroups assetName scene
      = (scene, some PyErr.typeError) ∧
    (∀ fullPath (scene2 : List (String × Option String)) a,
      Car.deriveAssetName fullPath = Except.ok a → a ≠ "" →
        Car.createRigGroups fullPath scene2
          = (scene2, some PyErr.typeError)) ∧
    ∀ scene3 : List (String × Option String),
      Car.createRigGroups "" scene3 = (scene3, some PyErr.typeError) := by
  refine ⟨rigGroups_typeError assetName scene h, ?_, ?_⟩
  · intro fp sc2 a ha hne
    unfold Car.createRigGroups
    rw [ha]
    exact rigGroups_typeError a sc2 hne
  · intro sc3
    have hd : Car.deriveAssetName "" = Except.ok "assetName" := rfl
    unfold Car.createRigGroups
    rw [hd]
    exact rigGroups_typeError "assetName" sc3 (by decide)

/-- Instance of `claimC5_typeError` at concrete inputs. -/
theorem claimC5_witness :
    RigGroups.createRigGroups "car" [] = ([], some PyErr.typeError) ∧
    (∀ fullPath (scene2 : List (String × Option String)) a,
      Car.deriveAssetName fullPath = Except.ok a → a ≠ "" →
        Car.createRigGroups fullPath scene2
          = (scene2, some PyErr.typeError)) ∧
    ∀ scene3 : List (String × Option String),
      Car.createRigGroups "" scene3 = (scene3, some PyErr.typeError) :=
  claimC5_typeError "car" [] (by decide)

/-- The request `pm.curve(p=position, d=1, n=shapeName)` issues for one
controller: the curve name, its degree, and its control points. -/
structure CurveSpec where
  name : String
  degree : Nat
  points : List (ℚ × ℚ × ℚ)
deriving DecidableEq, Repr

namespace Controllers

/-- `self.controllerShapes` (general.py:453-630): the controller-shape
library, keyed by shape name. -/
def controllerShapes : List (String × List (ℚ × ℚ × ℚ)) :=
  [("arrow",
    [(0, 0, 8), (8, 0, 4), (4, 0, 4), (4, 0, -8),
     (-4, 0, -8), (-4, 0, 4), (-8, 0, 4), (0, 0, 8)]),
   ("arrow2",
    [(0, 3, 12), (12, 3, 6), (6, 3, 6), (6, 3, -12),
     (-6, 3, -12), (-6, 3, 6), (-12, 3, 6), (0, 3, 12),
     (0, -3, 12), (12, -3, 6), (6, -3, 6), (6, -3, -12),
     (-6, -3, -12), (-6, -3, 6), (-12, -3, 6), (0, -3, 12),
     (12, -3, 6), (12, 3, 6), (6, 3, 6), (6, 3, -12),
     (6, -3, -12), (-6, -3, -12), (-6, 3, -12), (-6, 3, 6),
     (-12, 3, 6), (-12, -3, 6)]),
   ("arrow3",
    [(14, 0, 0), (10, 0, -10), (0, 0, -14), (-10, 0, -10),
     (-14, 0, 0), (-10, 0, 10), (0, 0, 14), (10, 0, 10),
     (14, 0, 0), (10, 0, 4), (14, 0, 6), (14, 0, 0)]),
   ("arrow4",
    [(0, 0, -23.1), (-6.3, 0, -16.8), (-4.2, 0, -16.8),
     (-4.2, 0, -12.6), (-10.5, 0, -10.5), (-12.6, 0, -4.2),
     (-16.8, 0, -4.2), (-16.8, 0, -6.3), (-23.1, 0, 0),
     (-16.8, 0, 6.3), (-16.8, 0, 4.2), (-12.6, 0, 4.2),
     (-10.5, 0, 10.5), (-4.2, 0, 12.6), (-4.2, 0, 16.8),
     (-6.3, 0, 16.8), (0, 0, 23.1), (6.3, 0, 16.8),
     (4.2, 0, 16.8), (4.2, 0, 12.6), (10.5, 0, 10.5),
     (12.6, 0, 4.2), (16.8, 0, 4.2), (16.8, 0, 6.3),
     (23.1, 0, 0), (16.8, 0, -6.3), (16.8, 0, -4.2),
     (12.6, 0, -4.2), (10.5, 0, -10.5), (4.2, 0, -12.6),
     (4.2, 0, -16.8), (6.3, 0, -16.8), (0, 0, -23.1)]),
   ("arrow5",
    [(-8, 0, -4), (8, 0, -4), (8, 0, -8), (16, 0, 0),
     (8, 0, 8), (8, 0, 4), (-8, 0, 4), (-8, 0, 8),
     (-16, 0, 0), (-8, 0, -8), (-8, 0, -4)]),
   ("arrow6",
    [(-0, 0, -12.6), (-0, 4, -13), (-0, 2, -10),
     (-0, 0, -12.6), (-0, 2, -12), (-0, 6, -10),
     (-0, 10, -6), (0, 12, 0), (0, 10, 6), (0, 6, 10),
     (0, 2, 12), (0, 0, 12.6), (0, 2, 10), (0, 4, 13),
     (0, 0, 12.6)]),
   ("car",
    [(81, 70, 119), (89, 56, 251), (89, -12, 251),
     (89, -12, 117), (89, -12, -117), (89, -12, -229),
     (81, 70, -229), (81, 70, -159), (69, 111, -105),
     (69, 111, 63), (81, 70, 119), (-81, 70, 119),
     (-89, 56, 251), (-89, -12, 251), (-89, -12, 117),
     (-89, -12, -117), (-89, -12, -229), (-81, 70, -229),
     (-81, 70, -159), (-69, 111, -105), (69, 111, -105),
     (81, 70, -159), (-81, 70, -159), (-81, 70, -229),
     (81, 70, -229), (89, -12, -229), (-89, -12, -229),
     (-89, -12, -117), (-89, -12, 117), (-89, -12, 251),
     (89, -12, 251), (89, 56, 251), (-89, 56, 251),
     (-81, 70, 119), (-69, 111, 63), (-69, 111, -105),
     (69, 111, -105), (69, 111, 63), (-69, 111, 63)]),
   ("car2",
    [(165, 0, -195), (0, 0, -276), (-165, 0, -195), (-97, 0, -0),
     (-165, -0, 195), (-0, -0, 276), (165, -0, 195), (97, -0, 0),
     (165, 0, -195)]),
   ("car3",
    [(212, 0, -212), (0, 0, -300), (-212, 0, -212), (-300, 0, 0),
     (-212, 0, 212), (0, 0, 300), (212, 0, 212), (300, 0, 0),
     (212, 0, -212)]),
   ("circle",
    [(0, 0, -15), (-10, 0, -10), (-15, 0, 0),
     (-10, 0, 10), (0, 0, 15), (10, 0, 10),
     (15, 0, 0), (10, 0, -10), (0, 0, -15)]),
   ("cone",
    [(0, 10, 0), (-4.35, 0, 0), (4.35, 0, 0), (0, 10, 0),
     (0, 0, 5), (-4.35, 0, 0), (4.35, 0, 0), (0, 0, 5)]),
   ("cone2",
    [(-5, 0, 0), (0, 0, 5), (5, 0, 0), (0, 0, -5),
     (0, 10, 0), (-5, 0, 0), (0, 10, 0), (0, 0, 5),
     (5, 0, 0), (0, 0, -5), (0, 0, -5), (-5, 0, 0),
     (0, 0, 5), (5, 0, 0), (0, 10, 0)]),
   ("cube",
    [(-5, 5, -5), (-5, 5, 5), (5, 5, 5), (5, 5, -5),
     (-5, 5, -5), (-5, -5, -5), (-5, -5, 5), (5, -5, 5),
     (5, -5, -5), (-5, -5, -5), (-5, -5, 5), (-5, 5, 5),
     (5, 5, 5), (5, -5, 5), (5, -5, -5), (5, 5, -5)]),
   ("cross",
    [(-1, 5, 0), (1, 5, 0), (1, 1, 0), (5, 1, 0),
     (5, -1, 0), (1, -1, 0), (1, -5, 0), (-1, -5, 0),
     (-1, -1, 0), (-5, -1, 0), (-5, 1, 0), (-1, 1, 0),
     (-1, 5, 0)]),
   ("cylinder",
    [(-7, 7, 0), (-5, 7, 5), (0, 7, 7), (5, 7, 5), (7, 7, 0),
     (5, 7, -5), (0, 7, -7), (0, 7, 7), (0, -7, 7), (-5, -7, 5),
     (-7, -7, 0), (-5, -7, -5), (0, -7, -7), (5, -7, -5),
     (7, -7, 0), (5, -7, 5), (0, -7, 7), (0, -7, -7),
     (0, 7, -7), (-5, 7, -5), (-7, 7, 0), (7, 7, 0),
     (7, -7, 0), (-7, -7, 0), (-7, 7, 0)]),
   ("foot",
    [(-4, 0, -4), (-4, 0, -7), (-3, 0, -11), (-1, 0, -12),
     (0, 0, -12), (1, 0, -12), (3, 0, -11), (4, 0, -7),
     (4, 0, -4), (-4, 0, -4), (-5, 0, 1), (-5, 0, 6),
     (-4, 0, 12), (-2, 0, 15), (0, 0, 15.5), (2, 0, 15),
     (4, 0, 12), (5, 0, 6), (5, 0, 1), (4, 0, -4), (-4, 0, -4),
     (4, 0, -4)]),
   ("foot2",
    [(-6, 12, -14), (-6, 12, 6), (6, 12, 6), (6, 12, -14),
     (-6, 12, -14), (-6, 0, -14), (-6, 0, 18), (6, 0, 18),
     (6, 0, -14), (-6, 0, -14), (-6, 0, 18), (-6, 12, 6),
     (6, 12, 6), (6, 0, 18), (6, 0, -14), (6, 12, -14)]),
   ("hat",
    [(14, 9, 0), (0, 15, 0), (-14, 9, 0), (-7, -5, 0),
     (-16, -7, 0), (0, -7, 0), (16, -7, 0), (7, -5, 0),
     (14, 9, 0)]),
   ("head",
    [(13, 15, -11), (0, 25, -15), (-13, 15, -11), (-14, 6, 0),
     (-13, 15, 11), (0, 25, 15), (13, 15, 11), (14, 6, 0),
     (13, 15, -11)]),
   ("hoof",
    [(-6, 0, -5), (-6.5, 0, -1), (-6, 0, 3), (-5.2, 0, 5.5),
     (-3, 0, 7.5), (0, 0, 8.2), (3, 0, 7.5), (5.2, 0, 5.5),
     (6, 0, 3), (6.5, 0, -1), (6, 0, -5), (4, 0, -5),
     (4.5, 0, -1), (4, 0, 3), (3.5, 0, 4.5), (2, 0, 6),
     (0, 0, 6.5), (-2, 0, 6), (-3.5, 0, 4.5), (-4, 0, 3),
     (-4.5, 0, -1), (-4, 0, -5), (-6, 0, -5), (-5.5, 0, -6.5),
     (5.5, 0, -6.5), (4.5, 0, -10), (2.2, 0, -12.2),
     (0, 0, -12.2), (-2.2, 0, -12.2), (-4.5, 0, -10),
     (-5.5, 0, -6.5)]),
   ("hoof2",
    [(6, 6, -12), (0, 8, -12), (-6, 6, -12), (-8, 3, -13),
     (-8, 0, -12), (-7, 0, -10), (-8, 0, -6), (-9, 0, -1),
     (-8, 0, 4), (-5, 0, 9), (0, 0, 10), (5, 0, 9), (8, 0, 4),
     (9, 0, -1), (8, 0, -6), (7, 0, -10), (8, 0, -12),
     (8, 3, -13), (6, 6, -12)]),
   ("pipe",
    [(0, 7, 7), (0, -7, 7), (4.9, -7, 4.9), (7, -7, 0),
     (7, 7, 0), (4.9, 7, -4.9), (0, 7, -7), (0, -7, -7),
     (-4.9, -7, -4.9), (-7, -7, 0), (-7, 7, 0), (-4.9, 7, 4.9),
     (0, 7, 7), (4.9, 7, 4.9), (7, 7, 0), (7, -7, 0),
     (4.9, -7, -4.9), (0, -7, -7), (0, 7, -7), (-4.9, 7, -4.9),
     (-7, 7, 0), (-7, -7, 0), (-4.9, -7, 4.9), (0, -7, 7)]),
   ("pointer",
    [(0, 8, 4), (-2.8, 8, 2.8), (-4, 8, 0), (-2.8, 8, -2.8),
     (0, 8, -4), (2.8, 8, -2.8), (4, 8, -0), (2.8, 8, 2.8),
     (0, 8, 4), (0, 8, -0), (0, 0, -0)]),
   ("scapula",
    [(2, 10, -11), (0, 0, -11), (-2, 10, -11), (-3, 18, 0),
     (-2, 10, 11), (0, 0, 11), (2, 10, 11), (3, 18, 0),
     (2, 10, -11)]),
   ("sphere",
    [(0, 5, 0), (0, 3.5, 3.5), (0, 0, 5), (0, -3.5, 3.5),
     (0, -5, 0), (0, -3.5, -3.5), (0, 0, -5), (0, 3.5, -3.5),
     (0, 5, 0), (-3.5, 3.5, 0), (-5, 0, 0), (-3.5, 0, 3.5),
     (0, 0, 5), (3.5, 0, 3.5), (5, 0, 0), (3.5, 0, -3.5),
     (0, 0, -5), (-3.5, 0, -3.5), (-5, 0, 0), (-3.5, -3.5, 0),
     (0, -5, 0), (3.5, -3.5, 0), (5, 0, 0), (3.5, 3.5, 0),
     (0, 5, 0)]),
   ("square",
    [(25, 0, 25), (25, 0, -25), (-25, 0, -25),
     (-25, 0, 25), (25, 0, 25)])]

/-- `Controllers.createControllers` (general.py:633-654) with positional
arguments: keep the arguments that are keys of the library
(`curvesToMake = [i for i in args if i in allShapes]`, silently dropping
the rest), and issue one `pm.curve(p=position, d=1, n=shapeName)` request
per kept argument, in order. -/
def createControllers (args : List String) : List CurveSpec :=
  let allShapes := controllerShapes.map Prod.fst
  let curvesToMake := args.filter (fun i => allShapes.contains i)
  curvesToMake.map (fun shapeName =>
    { name := shapeName, degree := 1,
      points := (controllerShapes.lookup shapeName).getD [] })

end Controllers

/-- Claim C8: called with positional shape-name arguments,
`createControllers` returns exactly one curve per argument that names a
shape in the `controllerShapes` library, named after it and in argument
order, silently skipping arguments that are not library keys; with no
arguments it returns the empty list and creates nothing (despite its
docstring promising all controllers in that case, the list comprehension
over `args` is empty). -/
theorem claimC8_createControllers (args : List String) :
    (Controllers.createControllers args).map (fun c => c.name)
      = args.filter (fun i =>
          (Controllers.controllerShapes.map Prod.fst).contains i) ∧
    (Controllers.createControllers args).length
      = (args.filter (fun i =>
          (Controllers.controllerShapes.map Prod.fst).contains i)).length ∧
    Controllers.createControllers [] = [] := by
  have h : (Controllers.createControllers args).map (fun c => c.name)
      = args.filter (fun i =>
          (Controllers.controllerShapes.map Prod.fst).contains i) := by
    unfold Controllers.createControllers
    simp [List.map_map, Function.comp_def]
  refine ⟨h, ?_, rfl⟩
  rw [← h]
  simp
